import Mathlib

/-!
Shallow embedding of the Euregan/valentin request/response pipeline.

Source files embedded:
- src/next/api.ts: client query and mutation hooks (useQuery, useMutation);
- src/next/legacy/endpoint.ts: legacy (pages-router) endpoint helpers
  (authentifiedGenerator, visitor, handle, resultToResponse);
- src/next/app/endpoint.ts: app-router endpoint helpers
  (authentified, visitor, resultToResponse).

External collaborators not under src (the jwt codec and the Result container)
are modelled from the spec where noted. JS null/undefined is modelled with
Option, JS thrown exceptions / rejected promises with Except, JS objects that
are merged by spread with association lists where the last binding wins.
-/

deriving instance DecidableEq for Except

namespace Valentin

/-- The client-side error shape from src/next/api.ts: `{ status, message }`. -/
structure Err where
  status : Nat
  message : String
deriving DecidableEq, Repr

/-- The server-side error shape from the endpoint files: `{ code, message }`. -/
structure Error where
  code : Nat
  message : String
deriving DecidableEq, Repr

/-- Modelled from the spec: the UniformResult container (external Result.ts,
not under src): construction Ok(value) / Err(error). -/
inductive Result (R E : Type) where
  | ok : R → Result R E
  | err : E → Result R E
deriving DecidableEq, Repr

/-- Modelled from the spec: inspection of a UniformResult via a total
match/unwrap that takes a success handler and an error handler. -/
def Result.unwrap {R E T : Type} (r : Result R E) (onOk : R → T) (onErr : E → T) : T :=
  match r with
  | .ok v => onOk v
  | .err e => onErr e

/-- Modelled from the spec: the session-credential codec (external jwt.ts, not
under src). `read(credentialString) -> Identity | throws`; a throw is modelled
as `Except.error ()`. -/
def JwtCodec (J : Type) := String → Except Unit J

/-- Observable effects of an endpoint invocation, used to state which injected
functions were actually called and whether the registered handler ran. -/
inductive Effect where
  | lookupCall (key : String)
  | trackCall (key : String)
  | handlerCall
deriving DecidableEq, Repr

/-! ## Client mutation primitive (useMutation, src/next/api.ts lines 160-207) -/

/-- The React state of a useMutation hook instance: the three useState cells
`loading`, `error`, `data`. -/
structure MutationState (Data : Type) where
  loading : Bool
  error : Option Err
  data : Option Data
deriving DecidableEq, Repr

/-- Initial state of a fresh useMutation hook instance:
`loading=false, error=null, data=null`. -/
def initialMutationState (Data : Type) : MutationState Data :=
  { loading := false, error := none, data := none }

/-- Everything observable from one `call(payload)` invocation of useMutation:
the hook state afterwards, the promise outcome returned to the caller
(`Except.error none` models `Promise.reject()` with no argument), whether the
401 redirect to /signin fired, and whether the transport (`api`) was called. -/
structure InvokeOutcome (Data : Type) where
  state : MutationState Data
  promise : Except (Option Err) Data
  redirected : Bool
  transportCalled : Bool
deriving DecidableEq, Repr

/-- The `setLoading(true)` step that useMutation's `call` performs before the
transport call; the state between this and settlement is the in-flight state. -/
def mutationStart {Data : Type} (st : MutationState Data) : MutationState Data :=
  { st with loading := true }

/-- Settlement of the transport call in useMutation's `call`: on success
`setData(data); setLoading(false)` and resolve with the data; on failure
redirect when status is 401, `setError(error); setLoading(false)` and reject
with the error. `t` is the transport outcome (`api` resolves or rejects). -/
def mutationSettle {Data : Type} (st : MutationState Data) (t : Except Err Data) :
    MutationState Data × Except (Option Err) Data × Bool :=
  match t with
  | .ok d => ({ st with data := some d, loading := false }, .ok d, false)
  | .error e =>
      ({ st with error := some e, loading := false }, .error (some e), e.status = 401)

/-- One invocation of useMutation's `call`: if `loading` is already true it
returns `Promise.reject()` at once with no transport call and no state change;
otherwise it sets loading, performs the transport call and settles. -/
def mutationCall {Data : Type} (st : MutationState Data) (t : Except Err Data) :
    InvokeOutcome Data :=
  if st.loading then
    { state := st, promise := .error none, redirected := false, transportCalled := false }
  else
    let s := mutationSettle (mutationStart st) t
    { state := s.1, promise := s.2.1, redirected := s.2.2, transportCalled := true }

/-- The tagged view useMutation renders from its state: the error branch is
checked first, then the data branch, else the loading tuple. -/
inductive MutationView (Data : Type) where
  | pending (loading : Bool)
  | failed (e : Err)
  | succeeded (d : Data)
deriving DecidableEq, Repr

/-- The return value of useMutation as a function of its state, following the
source order: `if (error) ...; if (data) ...; return [call, loading, ...]`. -/
def mutationView {Data : Type} (st : MutationState Data) : MutationView Data :=
  match st.error with
  | some e => .failed e
  | none =>
      match st.data with
      | some d => .succeeded d
      | none => .pending st.loading

/-! ## Client query primitive (useQuery, src/next/api.ts lines 80-117) -/

/-- The React state of a useQuery hook instance: the two useState cells
`error` and `data` (useQuery has no loading cell; loading is the absence of
both). -/
structure QueryState (Data : Type) where
  error : Option Err
  data : Option Data
deriving DecidableEq, Repr

/-- Initial state of a fresh useQuery hook instance: `error=null, data=null`. -/
def initialQueryState (Data : Type) : QueryState Data :=
  { error := none, data := none }

/-- One settlement of useQuery's `call` (automatic on mount/url change, or the
manual refresh): on success `setData(data)` and resolve; on failure redirect
when status is 401, `setError(error)` and rethrow. Returns the new state, the
promise outcome and the redirect flag. Note `call` performs no synchronous
state change before the transport settles. -/
def queryCall {Data : Type} (st : QueryState Data) (t : Except Err Data) :
    QueryState Data × Except Err Data × Bool :=
  match t with
  | .ok d => ({ st with data := some d }, .ok d, false)
  | .error e => ({ st with error := some e }, .error e, e.status = 401)

/-- The state transition of one settled call, forgetting the promise. -/
def queryStep {Data : Type} (st : QueryState Data) (t : Except Err Data) :
    QueryState Data :=
  (queryCall st t).1

/-- The tagged view useQuery renders from its state. -/
inductive QueryView (Data : Type) where
  | loading
  | failed (e : Err)
  | succeeded (d : Data)
deriving DecidableEq, Repr

/-- The return value of useQuery as a function of its state, following the
source order: `if (error) return [false, error, null, call]; if (data) return
[false, null, data, call]; return [true, null, null, call]`. -/
def queryView {Data : Type} (st : QueryState Data) : QueryView Data :=
  match st.error with
  | some e => .failed e
  | none =>
      match st.data with
      | some d => .succeeded d
      | none => .loading

/-- Whether a query view is the Failed variant. -/
def QueryView.isFailed {Data : Type} : QueryView Data → Bool
  | .failed _ => true
  | _ => false

/-! ## Shared server-side pieces -/

/-- JS truthiness of a nullable string: undefined/null and the empty string
are falsy, any other string is truthy. -/
def optTruthy : Option String → Bool
  | none => false
  | some s => s ≠ ""

/-- JS objects merged by spread are modelled as association lists where the
last binding of a key wins (`{...a, ...b}` is `a ++ b`). `getField` reads a
key under that convention. -/
def getField (o : List (String × String)) (k : String) : Option String :=
  (o.reverse.find? (fun p => p.1 = k)).map (fun p => p.2)

/-- Whether `sep` is a prefix of `l`; when it is, the remainder after it. -/
def stripPrefixChars : List Char → List Char → Option (List Char)
  | [], l => some l
  | _ :: _, [] => none
  | s :: ss, c :: cs => if s = c then stripPrefixChars ss cs else none

/-- Worker for JS `String.prototype.split`: scan left to right, cutting at
every occurrence of `sep`; `acc` holds the current chunk reversed. The fuel is
structural so the function evaluates in the kernel; `fuel = length of the
input` always suffices since every step consumes at least one character. -/
def splitGo (sep : List Char) : Nat → List Char → List Char → List (List Char)
  | _, [], acc => [acc.reverse]
  | 0, rest, acc => [acc.reverse ++ rest]
  | fuel + 1, c :: cs, acc =>
      match stripPrefixChars sep (c :: cs) with
      | some rest => acc.reverse :: splitGo sep fuel rest []
      | none => splitGo sep fuel cs (c :: acc)

/-- JS `s.split(sep)` for a non-empty separator. -/
def jsSplit (s sep : String) : List String :=
  (splitGo sep.toList s.toList.length s.toList []).map List.asString

/-- `request.headers.authorization && request.headers.authorization.split
("Bearer ")[1]`: none when the header is absent or falsy, otherwise element 1
of the JS split on "Bearer " (none when the header does not contain that
separator). -/
def extractApiKey (auth : Option String) : Option String :=
  match auth with
  | none => none
  | some h => if h = "" then none else (jsSplit h "Bearer ").get? 1

/-- The declared validation schema, seen only through zod's safeParse: it
either succeeds with the parsed payload or fails with a diagnostic message
(`validation.error.message`). -/
structure Validator (P : Type) where
  safeParse : List (String × String) → Except String P

/-- The JSON body an endpoint response carries: the handler data on success,
or a `{ message }` object on failure (and for 405/500 in `handle`). -/
inductive ResponseBody (R : Type) where
  | data (d : R)
  | message (m : String)
deriving DecidableEq, Repr

/-- An HTTP response as produced by the endpoint helpers: a status code and a
JSON body. -/
structure HttpResponse (R : Type) where
  status : Nat
  body : ResponseBody R
deriving DecidableEq, Repr

/-- The identity given to an authenticated handler: a JwtUser decoded from the
session cookie, or the user the injected API-key lookup resolved. -/
inductive AuthUser (J A : Type) where
  | jwtUser (u : J)
  | apiUser (a : A)
deriving DecidableEq, Repr

namespace Legacy

/-- A pages-router request as the legacy endpoint helpers read it: the
Authorization header, the `jwt` cookie (a string, so an empty cookie is
falsy), the JSON body and `request.query` (which the framework fills with
query-string and route parameters). -/
structure Request where
  authorization : Option String
  jwtCookie : Option String
  body : List (String × String)
  query : List (String × String)

/-- src/next/legacy/endpoint.ts `visitor`: merge `{...request.body,
...request.query}`, validate when a validator is given (400 on failure),
decode the optional session cookie (a throw from jwt.read propagates to the
caller, modelled as `Except.error ()`), then run the handler with the payload
and optional user. The handler reports its effects alongside its result. -/
def visitor {J P R : Type} (jwtRead : JwtCodec J)
    (handler : Option P → Option J → Result R Error × List Effect)
    (validator : Option (Validator P)) (request : Request) :
    Except Unit (Result R Error × List Effect) := do
  let afterValidation : Option P → Except Unit (Result R Error × List Effect) :=
    fun payload =>
      let token := request.jwtCookie
      if optTruthy token then
        match jwtRead (token.getD "") with
        | .error _ => .error ()
        | .ok u => .ok (handler payload (some u))
      else
        .ok (handler payload none)
  match validator with
  | none => afterValidation none
  | some v =>
      match v.safeParse (request.body ++ request.query) with
      | .ok payload => afterValidation (some payload)
      | .error msg => .ok (.err { code := 400, message := msg }, [])

/-- src/next/legacy/endpoint.ts `authentifiedGenerator`: resolve the caller
from the `jwt` cookie or the Authorization bearer key, then delegate to
`visitor` with the handler closed over the resolved user. Returns the
endpoint result together with the observable effects (key lookup, usage
tracking, handler invocation). -/
def authentifiedGenerator {J A P R : Type} (jwtRead : JwtCodec J)
    (findUserFromApiKey : String → Except Unit (Option A))
    (updateApiKeyUsage : Option (String → Except Unit Unit))
    (handler : AuthUser J A → Option P → Result R Error)
    (validator : Option (Validator P)) (request : Request) :
    Result R Error × List Effect :=
  let apiKey := extractApiKey request.authorization
  let token := request.jwtCookie
  if ¬ optTruthy token ∧ ¬ optTruthy apiKey then
    (.err { code := 401, message := "Your session has expired. Please signin again." },
     [])
  else
    -- the body of the outer try; a throw escaping it yields the session
    -- expiry error (the catch block)
    let afterUser : AuthUser J A → List Effect → Result R Error × List Effect :=
      fun user pre =>
        match visitor jwtRead (fun p _ => (handler user p, [Effect.handlerCall]))
            validator request with
        | .error _ =>
            (.err { code := 401,
                    message := "Your session has expired. Please signin again." },
             pre)
        | .ok (r, effs) => (r, pre ++ effs)
    if optTruthy token then
      match jwtRead (token.getD "") with
      | .error _ =>
          (.err { code := 401,
                  message := "Your session has expired. Please signin again." },
           [])
      | .ok u => afterUser (.jwtUser u) []
    else if optTruthy apiKey then
      let key := apiKey.getD ""
      match findUserFromApiKey key with
      | .error _ =>
          (.err { code := 401, message := "An error occured during authentification." },
           [.lookupCall key])
      | .ok none =>
          -- user is still null after the lookup: fall through to the !user check
          (.err { code := 401, message := "Please provide a mean of authentification." },
           [.lookupCall key])
      | .ok (some a) =>
          match updateApiKeyUsage with
          | none => afterUser (.apiUser a) [.lookupCall key]
          | some track =>
              match track key with
              | .error _ =>
                  (.err { code := 401,
                          message := "An error occured during authentification." },
                   [.lookupCall key, .trackCall key])
              | .ok _ => afterUser (.apiUser a) [.lookupCall key, .trackCall key]
    else
      -- unreachable given the first guard: user is null, the !user check fires
      (.err { code := 401, message := "Please provide a mean of authentification." },
       [])

/-- src/next/legacy/endpoint.ts `resultToResponse`: `Ok(data)` becomes
`response.status(200).json(data)`, `Err(error)` becomes
`response.status(error.code).json({ message: error.message })`. -/
def resultToResponse {Data : Type} (result : Result Data Error) : HttpResponse Data :=
  result.unwrap
    (fun data => { status := 200, body := .data data })
    (fun error => { status := error.code, body := .message error.message })

end Legacy

namespace App

/-- An app-router request as the app endpoint helpers read it: the
Authorization header, the `jwt` cookie (`request.cookies.get` returns a cookie
object, so a present cookie is truthy even when its value is empty — modelled
as `Option String` holding the value, present when `isSome`), the body object
that `...request.body` spreads, and the URL search parameters. -/
structure Request where
  authorization : Option String
  jwtCookie : Option String
  body : List (String × String)
  searchParams : List (String × String)

/-- The candidate object `{...request.body, ...searchParams, ...params}` the
app visitor feeds to the validator: body, then query parameters, then route
parameters, later spreads overriding earlier ones. -/
def mergeParts (body query routeParams : List (String × String)) :
    List (String × String) :=
  body ++ query ++ routeParams

/-- src/next/app/endpoint.ts `resultToResponse`: `Ok(data)` becomes
`Response.json(data)` (status 200), `Err(error)` becomes a response with
status `error.code` and body `{ message: error.message }`. -/
def resultToResponse {Data : Type} (result : Result Data Error) : HttpResponse Data :=
  result.unwrap
    (fun data => { status := 200, body := .data data })
    (fun error => { status := error.code, body := .message error.message })

/-- src/next/app/endpoint.ts `visitor`: validate the merged candidate when a
validator is given (400 on failure), decode the optional session cookie (a
throw from jwt.read escapes the returned promise, modelled as
`Except.error ()`), run the handler and serialize its result. -/
def visitor {J P R : Type} (jwtRead : JwtCodec J)
    (handler : Option P → Option J → Result R Error × List Effect)
    (validator : Option (Validator P)) (request : Request)
    (params : List (String × String)) :
    Except Unit (HttpResponse R × List Effect) := do
  let afterValidation : Option P → Except Unit (HttpResponse R × List Effect) :=
    fun payload =>
      match request.jwtCookie with
      | some tokenValue =>
          match jwtRead tokenValue with
          | .error _ => .error ()
          | .ok u =>
              let r := handler payload (some u)
              .ok (resultToResponse r.1, r.2)
      | none =>
          let r := handler payload none
          .ok (resultToResponse r.1, r.2)
  match validator with
  | none => afterValidation none
  | some v =>
      match v.safeParse (mergeParts request.body request.searchParams params) with
      | .ok payload => afterValidation (some payload)
      | .error msg =>
          .ok (resultToResponse (.err { code := 400, message := msg }), [])

/-- src/next/app/endpoint.ts `authentified`: only the `jwt` cookie yields an
identity (the bearer key counts for the presence check but is never looked
up); on success delegate to `visitor` with the handler closed over the
decoded user. -/
def authentified {J P R : Type} (jwtRead : JwtCodec J)
    (handler : J → Option P → Result R Error)
    (validator : Option (Validator P)) (request : Request)
    (params : List (String × String)) :
    Except Unit (HttpResponse R × List Effect) :=
  let apiKey := extractApiKey request.authorization
  if request.jwtCookie.isNone ∧ ¬ optTruthy apiKey then
    .ok (resultToResponse
          (.err { code := 401,
                  message := "Your session has expired. Please signin again." }),
         [])
  else
    match request.jwtCookie with
    | some tokenValue =>
        match jwtRead tokenValue with
        | .error _ =>
            .ok (resultToResponse
                  (.err { code := 401,
                          message := "Your session has expired. Please signin again." }),
                 [])
        | .ok u =>
            visitor jwtRead (fun p _ => (handler u p, [Effect.handlerCall]))
              validator request params
    | none =>
        -- user is null: the !user check fires
        .ok (resultToResponse
              (.err { code := 401,
                      message := "Please provide a mean of authentification." }),
             [])

end App

/-- The concrete schema of the merge scenario: a zod object requiring the
string fields listed; safeParse succeeds exactly when every field is present
in the candidate and returns their bindings. -/
def pickFields (fields : List String) : Validator (List (String × String)) where
  safeParse candidate :=
    if fields.all (fun f => (getField candidate f).isSome) then
      .ok (fields.map (fun f => (f, (getField candidate f).getD "")))
    else
      .error "Required"

/-- A session codec that always fails to decode, used for concrete scenarios
where either the cookie is absent or decoding is meant to throw. -/
def neverRead : JwtCodec Unit := fun _ => .error ()

/-! ## Theorems -/

/-- C4: calling the mutation primitive's invoke while `loading` is true
rejects immediately with no transport call and no state change; hence two
back-to-back invoke calls before the first settles (the second sees the
in-flight state `mutationStart st`) make exactly one transport call, and the
rejected call contributes no state transition. -/
theorem C4_mutation_serializes {Data : Type} (st : MutationState Data)
    (t t2 : Except Err Data) (h : st.loading = false) :
    mutationCall (mutationStart st) t2 =
      { state := mutationStart st, promise := .error none,
        redirected := false, transportCalled := false }
    ∧ (mutationCall st t).transportCalled = true
    ∧ ((if (mutationCall st t).transportCalled then 1 else 0) +
        (if (mutationCall (mutationStart st) t2).transportCalled then 1 else 0)) = 1 := by
  refine ⟨?_, ?_, ?_⟩ <;> simp [mutationCall, mutationStart, h]

/-- Witness for C4 at a concrete fresh hook instance and two transport
outcomes. -/
theorem C4_mutation_serializes_witness :
    mutationCall (mutationStart (initialMutationState Nat)) (.ok 7) =
      { state := mutationStart (initialMutationState Nat), promise := .error none,
        redirected := false, transportCalled := false }
    ∧ (mutationCall (initialMutationState Nat) (.ok 5)).transportCalled = true
    ∧ ((if (mutationCall (initialMutationState Nat) (.ok 5)).transportCalled then 1 else 0) +
        (if (mutationCall (mutationStart (initialMutationState Nat)) (.ok 7)).transportCalled
          then 1 else 0)) = 1 :=
  C4_mutation_serializes (initialMutationState Nat) (.ok 5) (.ok 7) (by decide)

/-- C7: a transport failure with `{status:403, message:"Forbidden"}` on a
fresh mutation hook ends with that error stored, `data=null`,
`loading=false`, no redirect, and the invoke promise rejected with the same
error; the rendered view is the Failed variant. -/
theorem C7_mutation_forbidden :
    mutationCall (initialMutationState Nat) (.error { status := 403, message := "Forbidden" }) =
      { state := { loading := false,
                   error := some { status := 403, message := "Forbidden" },
                   data := none },
        promise := .error (some { status := 403, message := "Forbidden" }),
        redirected := false,
        transportCalled := true }
    ∧ mutationView (mutationCall (initialMutationState Nat)
          (.error { status := 403, message := "Forbidden" })).state =
        .failed { status := 403, message := "Forbidden" } := by
  constructor <;> decide

/-- C8: from a `Succeeded(data)` query state, a manual refresh whose transport
returns the same data leaves the state literally unchanged, so the observable
value stays `Succeeded(data)` with no pass through Loading or Failed (the
call makes no synchronous state change before settling, and settlement
rewrites `data` to the same value). -/
theorem C8_query_refresh_idempotent {Data : Type} (st : QueryState Data) (d : Data)
    (he : st.error = none) (hd : st.data = some d) :
    queryView st = .succeeded d
    ∧ queryStep st (.ok d) = st
    ∧ queryView (queryStep st (.ok d)) = .succeeded d
    ∧ (queryCall st (.ok d)).2.1 = .ok d := by
  cases st
  simp_all [queryView, queryStep, queryCall]

/-- Witness for C8 at a concrete succeeded query state. -/
theorem C8_query_refresh_idempotent_witness :
    queryView ({ error := none, data := some 3 } : QueryState Nat) = .succeeded 3
    ∧ queryStep ({ error := none, data := some 3 } : QueryState Nat) (.ok 3) =
        { error := none, data := some 3 }
    ∧ queryView (queryStep ({ error := none, data := some 3 } : QueryState Nat) (.ok 3)) =
        .succeeded 3
    ∧ (queryCall ({ error := none, data := some 3 } : QueryState Nat) (.ok 3)).2.1 =
        .ok 3 :=
  C8_query_refresh_idempotent { error := none, data := some 3 } 3 rfl rfl

/-- C9: the query hook never clears its error: once `error` is set, every
further settled call (successful or not) leaves `error` set, and since the
render checks the error branch before the data branch, the hook reports the
Failed variant forever — a later successful fetch stores data but never
returns the view to Succeeded. -/
theorem C9_query_error_sticky {Data : Type} (st : QueryState Data)
    (ts : List (Except Err Data)) (h : st.error.isSome = true) :
    ((ts.foldl queryStep st).error.isSome = true)
    ∧ (queryView (ts.foldl queryStep st)).isFailed = true := by
  have herr : ∀ (s : QueryState Data) (l : List (Except Err Data)),
      s.error.isSome = true → (l.foldl queryStep s).error.isSome = true := by
    intro s l
    induction l generalizing s with
    | nil => intro hs; simpa using hs
    | cons t rest ih =>
        intro hs
        simp only [List.foldl_cons]
        apply ih
        cases t with
        | ok d => simpa [queryStep, queryCall] using hs
        | error e => simp [queryStep, queryCall]
  refine ⟨herr st ts h, ?_⟩
  have := herr st ts h
  rcases hres : (ts.foldl queryStep st).error with _ | e
  · rw [hres] at this; simp at this
  · simp [queryView, hres, QueryView.isFailed]

/-- Witness for C9: a failed state stays Failed across a successful refetch
and a further failure. -/
theorem C9_query_error_sticky_witness :
    (([Except.ok 1, Except.error { status := 401, message := "nope" }].foldl queryStep
        ({ error := some { status := 500, message := "boom" }, data := none } :
          QueryState Nat)).error.isSome = true)
    ∧ (queryView ([Except.ok 1, Except.error { status := 401, message := "nope" }].foldl
        queryStep
        ({ error := some { status := 500, message := "boom" }, data := none } :
          QueryState Nat))).isFailed = true :=
  C9_query_error_sticky
    { error := some { status := 500, message := "boom" }, data := none }
    [Except.ok 1, Except.error { status := 401, message := "nope" }] (by decide)

/-- C6: both dispatchers serialize `Ok(data)` as a 200 response whose JSON
body is the data, and `Err(error)` as a response whose status is the error's
code and whose JSON body is `{ message: error.message }`. -/
theorem C6_result_serialization {Data : Type} (d : Data) (e : Error) :
    Legacy.resultToResponse (Result.ok d) =
      { status := 200, body := .data d }
    ∧ Legacy.resultToResponse (.err e : Result Data Error) =
      { status := e.code, body := .message e.message }
    ∧ App.resultToResponse (Result.ok d) =
      { status := 200, body := .data d }
    ∧ App.resultToResponse (.err e : Result Data Error) =
      { status := e.code, body := .message e.message } :=
  ⟨rfl, rfl, rfl, rfl⟩

/-- Reading a key of a merged object takes the last spread that bound it:
`{...a, ...b}` gives b's binding when present, else a's. -/
theorem getField_append (a b : List (String × String)) (k : String) :
    getField (a ++ b) k = ((getField b k).orElse fun _ => getField a k) := by
  simp [getField, List.reverse_append, List.find?_append]
  cases b.reverse.find? (fun p => p.1 = k) <;> simp [Option.orElse]

/-- C3: the app visitor validates the merge of body, then query parameters,
then route parameters, later parts overriding earlier ones on key collision;
in the concrete scenario (body `name:a`, query `id:5`, route param `id:9`,
schema requiring `id` and `name`) the handler receives validated data with
`id:9` and `name:a`. -/
theorem C3_merge_order :
    (∀ (body query routeParams : List (String × String)) (k : String),
      getField (App.mergeParts body query routeParams) k =
        ((getField routeParams k).orElse fun _ =>
          ((getField query k).orElse fun _ => getField body k)))
    ∧ App.visitor (J := Unit) neverRead
        (fun p _ => (Result.ok p, [Effect.handlerCall]))
        (some (pickFields ["id", "name"]))
        { authorization := none, jwtCookie := none,
          body := [("name", "a")], searchParams := [("id", "5")] }
        [("id", "9")] =
      .ok ({ status := 200,
             body := .data (some [("id", "9"), ("name", "a")]) },
           [Effect.handlerCall]) := by
  constructor
  · intro body query routeParams k
    simp [App.mergeParts, getField_append]
    cases getField routeParams k <;> cases getField query k <;> simp [Option.orElse]
  · decide

/-- C1 counterexample: with neither a session cookie nor an Authorization
bearer key, the legacy authenticated endpoint returns the session-expiry
message, not "Please provide a mean of authentification." as the claim
states. -/
theorem C1_counterexample :
    ((Legacy.authentifiedGenerator (A := Unit) (P := Unit) (R := Unit) neverRead
        (fun _ => .error ()) none (fun _ _ => .ok ()) none
        { authorization := none, jwtCookie := none, body := [], query := [] }).1 =
      Result.err { code := 401,
                   message := "Your session has expired. Please signin again." })
    ∧ ((Legacy.authentifiedGenerator (A := Unit) (P := Unit) (R := Unit) neverRead
        (fun _ => .error ()) none (fun _ _ => .ok ()) none
        { authorization := none, jwtCookie := none, body := [], query := [] }).1 ≠
      Result.err { code := 401,
                   message := "Please provide a mean of authentification." }) := by
  constructor <;> decide

/-- C1 amended: for every request to an authenticated endpoint (legacy or
app) that presents neither a session credential nor an API key, the endpoint
returns an Err whose status is 401 and whose message is "Your session has
expired. Please signin again." (and performs no effects). -/
theorem C1_amended_no_credentials {J A P R : Type} (jwtRead : JwtCodec J)
    (find : String → Except Unit (Option A))
    (track : Option (String → Except Unit Unit))
    (handlerL : AuthUser J A → Option P → Result R Error)
    (handlerA : J → Option P → Result R Error)
    (validator : Option (Validator P))
    (reqL : Legacy.Request) (reqA : App.Request)
    (params : List (String × String))
    (hLt : optTruthy reqL.jwtCookie = false)
    (hLa : optTruthy (extractApiKey reqL.authorization) = false)
    (hAt : reqA.jwtCookie = none)
    (hAa : optTruthy (extractApiKey reqA.authorization) = false) :
    Legacy.authentifiedGenerator jwtRead find track handlerL validator reqL =
      (.err { code := 401,
              message := "Your session has expired. Please signin again." }, [])
    ∧ App.authentified jwtRead handlerA validator reqA params =
      .ok ({ status := 401,
             body := .message "Your session has expired. Please signin again." },
           []) := by
  constructor
  · simp [Legacy.authentifiedGenerator, hLt, hLa]
  · simp [App.authentified, hAt, hAa, App.resultToResponse, Result.unwrap]

/-- Witness for C1's amended statement at a concrete credential-less request
to both endpoint variants. -/
theorem C1_amended_no_credentials_witness :
    Legacy.authentifiedGenerator (A := Unit) (P := Unit) (R := Unit) neverRead
        (fun _ => .error ()) none (fun _ _ => .ok ()) none
        { authorization := none, jwtCookie := none, body := [], query := [] } =
      (.err { code := 401,
              message := "Your session has expired. Please signin again." }, [])
    ∧ App.authentified (P := Unit) (R := Unit) neverRead (fun _ _ => .ok ()) none
        { authorization := none, jwtCookie := none, body := [], searchParams := [] }
        [] =
      .ok ({ status := 401,
             body := .message "Your session has expired. Please signin again." },
           []) :=
  C1_amended_no_credentials neverRead (fun _ => .error ()) none
    (fun _ _ => .ok ()) (fun _ _ => .ok ()) none
    { authorization := none, jwtCookie := none, body := [], query := [] }
    { authorization := none, jwtCookie := none, body := [], searchParams := [] }
    [] rfl rfl rfl rfl

/-- C2: whenever a session cookie is present and the codec fails to decode it,
the legacy authenticated endpoint returns 401 with the session-expiry
message, whatever the Authorization header, key lookup or tracking function
are: the session credential is tried first and exclusively, and the effect
log is empty, so the key lookup is never invoked. -/
theorem C2_expired_session_precedence {J A P R : Type} (jwtRead : JwtCodec J)
    (find : String → Except Unit (Option A))
    (track : Option (String → Except Unit Unit))
    (handler : AuthUser J A → Option P → Result R Error)
    (validator : Option (Validator P)) (request : Legacy.Request)
    (ht : optTruthy request.jwtCookie = true)
    (hr : jwtRead (request.jwtCookie.getD "") = .error ()) :
    Legacy.authentifiedGenerator jwtRead find track handler validator request =
      (.err { code := 401,
              message := "Your session has expired. Please signin again." }, [])
    ∧ ∀ k, Effect.lookupCall k ∉
        (Legacy.authentifiedGenerator jwtRead find track handler validator request).2 := by
  have hmain :
      Legacy.authentifiedGenerator jwtRead find track handler validator request =
        (.err { code := 401,
                message := "Your session has expired. Please signin again." }, []) := by
    simp [Legacy.authentifiedGenerator, ht, hr]
  exact ⟨hmain, fun k => by simp [hmain]⟩

/-- Witness for C2: an expired cookie together with a valid-looking bearer
key still yields the session-expiry error and no lookup call. -/
theorem C2_expired_session_precedence_witness :
    Legacy.authentifiedGenerator (A := Unit) (P := Unit) (R := Unit) neverRead
        (fun _ => .ok (some ())) none (fun _ _ => .ok ()) none
        { authorization := some "Bearer validkey", jwtCookie := some "expired",
          body := [], query := [] } =
      (.err { code := 401,
              message := "Your session has expired. Please signin again." }, [])
    ∧ ∀ k, Effect.lookupCall k ∉
        (Legacy.authentifiedGenerator (A := Unit) (P := Unit) (R := Unit) neverRead
          (fun _ => .ok (some ())) none (fun _ _ => .ok ()) none
          { authorization := some "Bearer validkey", jwtCookie := some "expired",
            body := [], query := [] }).2 :=
  C2_expired_session_precedence neverRead (fun _ => .ok (some ())) none
    (fun _ _ => .ok ()) none
    { authorization := some "Bearer validkey", jwtCookie := some "expired",
      body := [], query := [] }
    (by decide) rfl

/-- C5: with neither a session credential nor an API key, both authenticated
endpoint variants produce an HTTP response with status 401 and an empty
effect log, so the registered handler is never invoked. -/
theorem C5_no_credentials_handler_never_runs {J A P R : Type} (jwtRead : JwtCodec J)
    (find : String → Except Unit (Option A))
    (track : Option (String → Except Unit Unit))
    (handlerL : AuthUser J A → Option P → Result R Error)
    (handlerA : J → Option P → Result R Error)
    (validator : Option (Validator P))
    (reqL : Legacy.Request) (reqA : App.Request)
    (params : List (String × String))
    (hLt : optTruthy reqL.jwtCookie = false)
    (hLa : optTruthy (extractApiKey reqL.authorization) = false)
    (hAt : reqA.jwtCookie = none)
    (hAa : optTruthy (extractApiKey reqA.authorization) = false) :
    (Legacy.resultToResponse
      (Legacy.authentifiedGenerator jwtRead find track handlerL validator reqL).1).status
        = 401
    ∧ Effect.handlerCall ∉
        (Legacy.authentifiedGenerator jwtRead find track handlerL validator reqL).2
    ∧ ∃ resp : HttpResponse R,
        App.authentified jwtRead handlerA validator reqA params = .ok (resp, [])
        ∧ resp.status = 401 := by
  have hL :
      Legacy.authentifiedGenerator jwtRead find track handlerL validator reqL =
        (.err { code := 401,
                message := "Your session has expired. Please signin again." }, []) := by
    simp [Legacy.authentifiedGenerator, hLt, hLa]
  have hA :
      App.authentified jwtRead handlerA validator reqA params =
        .ok ({ status := 401,
               body := .message "Your session has expired. Please signin again." },
             []) := by
    simp [App.authentified, hAt, hAa, App.resultToResponse, Result.unwrap]
  refine ⟨?_, ?_, ?_⟩
  · simp [hL, Legacy.resultToResponse, Result.unwrap]
  · simp [hL]
  · exact ⟨_, hA, rfl⟩

/-- Witness for C5 at a concrete credential-less request to both variants. -/
theorem C5_no_credentials_handler_never_runs_witness :
    (Legacy.resultToResponse
      (Legacy.authentifiedGenerator (A := Unit) (P := Unit) (R := Unit) neverRead
        (fun _ => .error ()) none (fun _ _ => .ok ()) none
        { authorization := none, jwtCookie := none, body := [], query := [] }).1).status
      = 401
    ∧ Effect.handlerCall ∉
        (Legacy.authentifiedGenerator (A := Unit) (P := Unit) (R := Unit) neverRead
          (fun _ => .error ()) none (fun _ _ => .ok ()) none
          { authorization := none, jwtCookie := none, body := [], query := [] }).2
    ∧ ∃ resp : HttpResponse Unit,
        App.authentified (P := Unit) neverRead (fun _ _ => .ok ()) none
          { authorization := none, jwtCookie := none, body := [], searchParams := [] }
          [] = .ok (resp, [])
        ∧ resp.status = 401 :=
  C5_no_credentials_handler_never_runs neverRead (fun _ => .error ()) none
    (fun _ _ => .ok ()) (fun _ _ => .ok ()) none
    { authorization := none, jwtCookie := none, body := [], query := [] }
    { authorization := none, jwtCookie := none, body := [], searchParams := [] }
    [] rfl rfl rfl rfl

/-- C10: in the legacy authenticated endpoint, when there is no session
cookie, the bearer key lookup succeeds, and the registered usage-tracking
call rejects, the request fails with 401 "An error occured during
authentification." and the handler is never invoked — tracking failure
propagates rather than being best-effort. -/
theorem C10_tracking_failure_propagates {J A P R : Type} (jwtRead : JwtCodec J)
    (find : String → Except Unit (Option A))
    (tracker : String → Except Unit Unit)
    (handler : AuthUser J A → Option P → Result R Error)
    (validator : Option (Validator P)) (request : Legacy.Request)
    (key : String) (a : A)
    (ht : optTruthy request.jwtCookie = false)
    (hk : extractApiKey request.authorization = some key)
    (hne : key ≠ "")
    (hfind : find key = .ok (some a))
    (htrack : tracker key = .error ()) :
    Legacy.authentifiedGenerator jwtRead find (some tracker) handler validator request =
      (.err { code := 401, message := "An error occured during authentification." },
       [.lookupCall key, .trackCall key])
    ∧ Effect.handlerCall ∉
        (Legacy.authentifiedGenerator jwtRead find (some tracker) handler validator
          request).2 := by
  have hmain :
      Legacy.authentifiedGenerator jwtRead find (some tracker) handler validator
          request =
        (.err { code := 401, message := "An error occured during authentification." },
         [.lookupCall key, .trackCall key]) := by
    have hak : optTruthy (some key) = true := by simp [optTruthy, hne]
    simp [Legacy.authentifiedGenerator, ht, hk, hak, hfind, htrack]
  exact ⟨hmain, by simp [hmain]⟩

/-- Witness for C10: a concrete request with only a bearer key, a succeeding
lookup and a rejecting tracker. -/
theorem C10_tracking_failure_propagates_witness :
    Legacy.authentifiedGenerator (J := Unit) (P := Unit) (R := Unit) neverRead
        (fun _ => .ok (some ())) (some fun _ => .error ()) (fun _ _ => .ok ()) none
        { authorization := some "Bearer k", jwtCookie := none, body := [], query := [] } =
      (.err { code := 401, message := "An error occured during authentification." },
       [.lookupCall "k", .trackCall "k"])
    ∧ Effect.handlerCall ∉
        (Legacy.authentifiedGenerator (J := Unit) (P := Unit) (R := Unit) neverRead
          (fun _ => .ok (some ())) (some fun _ => .error ()) (fun _ _ => .ok ()) none
          { authorization := some "Bearer k", jwtCookie := none, body := [],
            query := [] }).2 :=
  C10_tracking_failure_propagates neverRead (fun _ => .ok (some ()))
    (fun _ => .error ()) (fun _ _ => .ok ()) none
    { authorization := some "Bearer k", jwtCookie := none, body := [], query := [] }
    "k" () rfl (by decide) (by decide) rfl rfl

end Valentin
